import Mathlib

/-!
Shallow embedding of `src/scraper.py` (novel web scraper + bulk translator).

External capabilities (HTTP transport, the HTML parser producing a node
tree, URL resolution, the translation backend) are modelled as function
parameters; the pipeline logic itself (`fetch_url`, `get_chapter_links`,
`extract_chapter_text`, `translate_text`, `sanitize_filename`,
`process_chapters`) is translated function by function from the source.
`time.sleep` calls are modelled by counting them; `print` calls are
dropped; a raised `RuntimeError` is modelled by `Except.error` carrying
the message string.
-/

/-- Model of Python `str.strip()`: drop leading and trailing whitespace. -/
def pyStrip (s : String) : String :=
  String.mk ((s.toList.dropWhile Char.isWhitespace).reverse.dropWhile Char.isWhitespace).reverse

/-- Helper for `pySplitLines`: accumulate characters of the current chunk. -/
def splitLinesAux : List Char → List Char → List String
  | [], acc => [String.mk acc.reverse]
  | c :: cs, acc =>
    if c = '\n' then String.mk acc.reverse :: splitLinesAux cs []
    else splitLinesAux cs (c :: acc)

/-- Model of Python `s.split("\n")`: split on every newline, keeping empty chunks. -/
def pySplitLines (s : String) : List String := splitLinesAux s.toList []

/-- Model of the Python substring test `pat in s`. -/
def strContains (s pat : String) : Bool := decide (pat.toList <:+: s.toList)

/-- Outcome of one call to the external GET capability (`requests.get`):
either a transport-level error (`requests.RequestException`) or an HTTP
response with a status code and a body (`resp.status_code`, `resp.text`). -/
inductive GetOutcome where
  | transportError : GetOutcome
  | response (status : Nat) (body : String) : GetOutcome
deriving Repr, DecidableEq

/-- Observable result of `fetch_url`: the returned value (`some body` on
success, `none` on failure), the number of GET attempts made, and the
number of `time.sleep(delay)` calls performed. -/
structure FetchResult where
  result : Option String
  attempts : Nat
  sleeps : Nat
deriving Repr, DecidableEq

/-- The `for attempt in range(1, retries + 1)` loop of `fetch_url`
(src/scraper.py:28-41), run over the remaining list of attempt numbers.
The GET capability is indexed by the attempt number so that successive
attempts may behave differently.  A 200 response returns the body; any
other status returns `None` at once; a transport error sleeps and
retries, except on the final attempt (`attempt == retries`), where it
returns `None` without sleeping.  An exhausted list means the loop fell
through, which in Python returns `None`. -/
def fetch_loop (get : Nat → GetOutcome) (retries : Nat) : List Nat → FetchResult
  | [] => ⟨none, 0, 0⟩
  | attempt :: rest =>
    match get attempt with
    | .response status body =>
      if status = 200 then ⟨some body, 1, 0⟩ else ⟨none, 1, 0⟩
    | .transportError =>
      if attempt = retries then ⟨none, 1, 0⟩
      else
        let r := fetch_loop get retries rest
        ⟨r.result, r.attempts + 1, r.sleeps + 1⟩

/-- `fetch_url(url, headers, retries, timeout, delay)` (src/scraper.py:23-41),
with the url/headers/timeout baked into the GET capability and the delay
modelled by counting sleeps.  `retries` is an `Int` because the Python
parameter may be any integer; `range(1, retries + 1)` enumerates the
attempt numbers `1, ..., retries`, which is empty when `retries <= 0`. -/
def fetch_url (get : Nat → GetOutcome) (retries : Int) : FetchResult :=
  fetch_loop get retries.toNat (List.range' 1 retries.toNat)

mutual
/-- Node tree produced by the external HTML parser (BeautifulSoup):
either a text node or an element with a tag, attributes and children. -/
inductive Html where
  | text (s : String) : Html
  | element (tag : String) (attrs : List (String × String)) (children : HtmlList) : Html

inductive HtmlList where
  | nil : HtmlList
  | cons (h : Html) (t : HtmlList) : HtmlList
end

/-- Build an `HtmlList` from a `List Html` (notation convenience only). -/
def HtmlList.ofList : List Html → HtmlList
  | [] => .nil
  | h :: t => .cons h (HtmlList.ofList t)

/-- Element node with children given as a plain list. -/
def Html.el (tag : String) (attrs : List (String × String)) (children : List Html) : Html :=
  .element tag attrs (HtmlList.ofList children)

mutual
/-- All element nodes of a tree in document (preorder) order, the node
itself included; text nodes are not elements. -/
def nodes : Html → List Html
  | .text _ => []
  | .element t a cs => .element t a cs :: nodesList cs

def nodesList : HtmlList → List Html
  | .nil => []
  | .cons h t => nodes h ++ nodesList t
end

/-- All element nodes strictly below a node, in document order
(BeautifulSoup's `find`/`find_all` search descendants, not the node itself). -/
def descendantElems : Html → List Html
  | .text _ => []
  | .element _ _ cs => nodesList cs

/-- Attribute lookup, `tag.get(key)`: `None` when the attribute is absent. -/
def Html.getAttr : Html → String → Option String
  | .text _, _ => none
  | .element _ attrs _, key => (attrs.find? (fun p => p.1 = key)).map (fun p => p.2)

/-- The tag name of an element node. -/
def Html.tagOf : Html → Option String
  | .text _ => none
  | .element t _ _ => some t

mutual
/-- All text-node strings below a node, in document order. -/
def texts : Html → List String
  | .text s => [s]
  | .element _ _ cs => textsList cs

def textsList : HtmlList → List String
  | .nil => []
  | .cons h t => texts h ++ textsList t
end

/-- BeautifulSoup's `get_text(sep, strip=True)`: each descendant string is
stripped, empty results are dropped, and the rest are joined by `sep`. -/
def getTextStrip (sep : String) (e : Html) : String :=
  String.intercalate sep (((texts e).map pyStrip).filter (fun s => s ≠ ""))

/-- `soup.find(id=i)`: the first element in document order whose `id`
attribute equals `i`. -/
def findByIdAttr (doc : Html) (i : String) : Option Html :=
  (nodes doc).find? (fun e => e.getAttr "id" == some i)

/-- `container.find_all(tags)`: all descendant elements whose tag is in
`tags`, in document order. -/
def findAllTags (e : Html) (tags : List String) : List Html :=
  (descendantElems e).filter (fun n => match n.tagOf with
    | some t => tags.contains t
    | none => false)

/-- One entry of the chapter list: `{"title": ..., "url": ...}`. -/
structure Chapter where
  title : String
  url : String
deriving Repr, DecidableEq

/-- Loop body of `get_chapter_links` (src/scraper.py:62-68): an anchor
with a present, non-empty `href` and non-empty stripped text becomes a
chapter whose url is `urljoin(index_url, href)`; any other anchor is
skipped (`continue`). -/
def anchorEntry (ujoin : String → String → String) (index_url : String) (a : Html) :
    Option Chapter :=
  match a.getAttr "href" with
  | none => none
  | some h =>
    if h = "" || getTextStrip "" a = "" then none
    else some ⟨getTextStrip "" a, ujoin index_url h⟩

/-- `get_chapter_links(index_url, headers, retries, timeout, delay)`
(src/scraper.py:44-71).  The GET capability is indexed by url and attempt
number; `parse` is the external `BeautifulSoup` parser; `ujoin` the
external `urljoin`.  A falsy fetched body (`None` or `""`) raises
`RuntimeError("Failed to fetch index page")`; a missing `#tbchapterlist`
container raises the structure error; otherwise every anchor in the
container is folded through `anchorEntry` in document order. -/
def get_chapter_links (get : String → Nat → GetOutcome) (parse : String → Html)
    (ujoin : String → String → String) (index_url : String) (retries : Int) :
    Except String (List Chapter) :=
  match (fetch_url (get index_url) retries).result with
  | none => .error "Failed to fetch index page"
  | some html =>
    if html = "" then .error "Failed to fetch index page"
    else
      match findByIdAttr (parse html) "tbchapterlist" with
      | none => .error "Could not find #tbchapterlist – check the page structure"
      | some container =>
        .ok ((findAllTags container ["a"]).filterMap (anchorEntry ujoin index_url))

/-- The style predicate of `extract_chapter_text` (src/scraper.py:85):
`lambda v: v and "font-size: 20px" in v and "line-height: 30px" in v`. -/
def styleMatches (v : String) : Bool :=
  v ≠ "" && strContains v "font-size: 20px" && strContains v "line-height: 30px"

/-- `soup.find("div", style=...)` (src/scraper.py:83-86): the first `div`
in document order whose `style` attribute is present and truthy and
satisfies the style predicate. -/
def findContentDiv (doc : Html) : Option Html :=
  (nodes doc).find? (fun e =>
    e.tagOf == some "div" &&
      (match e.getAttr "style" with
       | some v => styleMatches v
       | none => false))

/-- Primary extraction (src/scraper.py:94-97): the non-empty stripped
texts of the `p` and `br` descendants of the content div, in order. -/
def primaryLines (content_div : Html) : List String :=
  (findAllTags content_div ["p", "br"]).filterMap (fun e =>
    if getTextStrip "" e = "" then none else some (getTextStrip "" e))

/-- Fallback extraction (src/scraper.py:100-102): split
`content_div.get_text("\n", strip=True)` on newlines and keep the lines
whose strip is non-empty. -/
def fallbackLines (content_div : Html) : List String :=
  (pySplitLines (getTextStrip "\n" content_div)).filter (fun l => pyStrip l ≠ "")

/-- Boilerplate cleaning (src/scraper.py:105-109): drop every line that
contains the site-reminder marker. -/
def cleanLines (paragraphs : List String) : List String :=
  paragraphs.filter (fun line => !(strContains line "請記住本站域名"))

/-- `extract_chapter_text(chapter_html)` (src/scraper.py:74-111): parse,
locate the content div (raising the structure error when absent), run
primary extraction, fall back to raw-text line-splitting when the primary
yields zero lines, clean, and join with newlines. -/
def extract_chapter_text (parse : String → Html) (chapter_html : String) :
    Except String String :=
  match findContentDiv (parse chapter_html) with
  | none => .error "Could not find chapter text container. Structure may have changed."
  | some content_div =>
    let paragraphs := primaryLines content_div
    let paragraphs := if paragraphs = [] then fallbackLines content_div else paragraphs
    .ok (String.intercalate "\n" (cleanLines paragraphs))

/-- The external per-line translation capability
(`translator.translate(line)`), indexed by the 1-based line number so
successive calls may behave differently; `none` models a raised
exception. -/
def Translator : Type := Nat → String → Option String

/-- The `for idx, line in enumerate(lines, start=1)` loop of
`translate_text` (src/scraper.py:125-132): a successful translation is
appended; a raised exception falls back to the original line. -/
def translateLoop (t : Translator) : Nat → List String → List String
  | _, [] => []
  | idx, line :: rest => ((t idx line).getD line) :: translateLoop t (idx + 1) rest

/-- `translate_text(text, translator, enabled, line_delay)`
(src/scraper.py:114-134): with translation disabled or no translator the
text passes through unchanged; otherwise the text is split on newlines,
blank lines are dropped, each remaining line is translated (falling back
to the original on error) and the results are joined with newlines. -/
def translate_text (text : String) (translator : Option Translator) (enabled : Bool) :
    String :=
  match translator, enabled with
  | some t, true =>
    String.intercalate "\n"
      (translateLoop t 1 ((pySplitLines text).filter (fun line => pyStrip line ≠ "")))
  | _, _ => text

/-- Python `s.replace(old, new)` for one-character `old` and `new`. -/
def pyCharReplace (s : String) (old new : Char) : String :=
  String.mk (s.toList.map (fun c => if c = old then new else c))

/-- `sanitize_filename(name)` (src/scraper.py:137-144): each character of
the raw string `r'\\/:*?"<>|'` (the backslash listed twice) is replaced
by an underscore, the result is stripped, and an empty strip falls back
to `"chapter"` (`name.strip() or "chapter"`). -/
def sanitize_filename (name : String) : String :=
  let replaced := "\\\\/:*?\"<>|".toList.foldl (fun acc ch => pyCharReplace acc ch '_') name
  if pyStrip replaced = "" then "chapter" else pyStrip replaced

/-- Python `f"{n:04d}"` for natural `n`: decimal digits left-padded with
zeros to width 4. -/
def pad4 (n : Nat) : String :=
  let s := toString n
  if 4 ≤ s.length then s else String.mk (List.replicate (4 - s.length) '0' ++ s.toList)

/-- Per-chapter observable outcome of the orchestrator loop: the chapter
was skipped after a failed fetch, skipped after a structure error during
extraction, or written as an artifact with the given path and content. -/
inductive ChapterOutcome where
  | fetchFailed (idx : Nat) : ChapterOutcome
  | extractFailed (idx : Nat) : ChapterOutcome
  | written (idx : Nat) (path : String) (content : String) : ChapterOutcome
deriving Repr, DecidableEq

/-- The 0-based chapter position an outcome refers to. -/
def ChapterOutcome.idxOf : ChapterOutcome → Nat
  | .fetchFailed i => i
  | .extractFailed i => i
  | .written i _ _ => i

/-- The `for idx, chap in enumerate(chapter_links[start_from:], start=start_from)`
loop of `process_chapters` (src/scraper.py:191-231): stop when
`max_chapters` is set and `idx >= start_from + max_chapters`; a falsy
fetched body skips the chapter; a structure error from
`extract_chapter_text` is caught and skips the chapter; otherwise the
artifact is written under
`output_dir/<idx+1 padded>_<sanitized title>[_en].txt`, translated when
`translate` is on. -/
def processLoop (get : String → Nat → GetOutcome) (parse : String → Html)
    (translator : Option Translator) (translate : Bool) (output_dir : String)
    (start_from : Nat) (max_chapters : Option Nat) (retries : Int) :
    List Chapter → Nat → List ChapterOutcome
  | [], _ => []
  | chap :: rest, idx =>
    if (match max_chapters with
        | some m => decide (start_from + m ≤ idx)
        | none => false) then []
    else
      let next := processLoop get parse translator translate output_dir start_from
        max_chapters retries rest (idx + 1)
      match (fetch_url (get chap.url) retries).result with
      | none => .fetchFailed idx :: next
      | some html =>
        if html = "" then .fetchFailed idx :: next
        else
          match extract_chapter_text parse html with
          | .error _ => .extractFailed idx :: next
          | .ok zh_text =>
            let base_name := pad4 (idx + 1) ++ "_" ++ sanitize_filename chap.title
            if translate then
              ChapterOutcome.written idx (output_dir ++ "/" ++ base_name ++ "_en.txt")
                (translate_text zh_text translator true) :: next
            else
              ChapterOutcome.written idx (output_dir ++ "/" ++ base_name ++ ".txt")
                zh_text :: next

/-- `process_chapters(...)` (src/scraper.py:147-231): build the translator
only when translation is on, resolve the chapter list once (propagating
its `RuntimeError`s), return with nothing processed when
`start_from >= total`, and otherwise run the per-chapter loop over
`chapter_links[start_from:]`.  Directory creation, logging and sleeps
are outside the returned value; the artifact writes are the `written`
outcomes. -/
def process_chapters (get : String → Nat → GetOutcome) (parse : String → Html)
    (ujoin : String → String → String) (tr : Translator) (index_url output_dir : String)
    (start_from : Nat) (max_chapters : Option Nat) (translate : Bool) (retries : Int) :
    Except String (List ChapterOutcome) :=
  let translator : Option Translator := if translate then some tr else none
  match get_chapter_links get parse ujoin index_url retries with
  | .error e => .error e
  | .ok chapter_links =>
    if chapter_links.length ≤ start_from then .ok []
    else
      .ok (processLoop get parse translator translate output_dir start_from max_chapters
        retries (chapter_links.drop start_from) start_from)

/-- Chapter-list container used by concrete runs: two well-formed
anchors and one anchor without an href. -/
def exIndexContainer : Html :=
  Html.el "table" [("id", "tbchapterlist")]
    [Html.el "a" [("href", "c1")] [.text "Ch 1"],
     Html.el "a" [] [.text "no href"],
     Html.el "a" [("href", "c2")] [.text " Ch 2 "]]

/-- Index page used by concrete runs: the `#tbchapterlist` container
under a root element. -/
def exIndexDoc : Html := Html.el "html" [] [exIndexContainer]

/-- Chapter page used by concrete runs: a matching content div with two
paragraphs (one of them a boilerplate line) and a br. -/
def exChapDoc : Html :=
  Html.el "html" []
    [Html.el "div" [("style", "font-size: 20px; line-height: 30px;")]
      [Html.el "p" [] [.text "hello"],
       Html.el "p" [] [.text "請記住本站域名 x"],
       Html.el "br" [] []]]

/-- A matching content div with no content at all. -/
def exEmptyDiv : Html :=
  Html.el "div" [("style", "font-size: 20px; line-height: 30px")] []

/-- A content div without `p`/`br` structure, only raw text lines,
driving the fallback extraction path. -/
def exFallbackDiv : Html :=
  Html.el "div" [("style", "font-size: 20px; line-height: 30px")]
    [.text "line1", .text "line2"]

/-- A document with neither a `#tbchapterlist` container nor a content div. -/
def exBareDoc : Html := Html.el "html" [] []

/-- GET capability whose first two attempts raise a transport error and
whose third answers 200. -/
def exGetFlaky : Nat → GetOutcome :=
  fun n => if n ≤ 2 then .transportError else .response 200 "ok"

/-- GET capability whose first attempt raises a transport error and whose
later attempts answer 404. -/
def exGetThen404 : Nat → GetOutcome :=
  fun n => if n = 1 then .transportError else .response 404 "nf"

/-- GET capability that always answers 200. -/
def exGetOk : Nat → GetOutcome := fun _ => .response 200 "ok"

/-- Per-url GET capability of the concrete pipeline runs: the index url
yields the index body, every other url yields a chapter body. -/
def exGet : String → Nat → GetOutcome :=
  fun url _ => if url = "http://x" then .response 200 "INDEX" else .response 200 "CHAP"

/-- Parser capability of the concrete pipeline runs. -/
def exParse : String → Html :=
  fun s => if s = "INDEX" then exIndexDoc else exChapDoc

/-- URL resolver capability of the concrete runs. -/
def exUjoin : String → String → String := fun base h => base ++ "/" ++ h

/-- Parser mapping every body to the fallback-only chapter page. -/
def exParseFallback : String → Html := fun _ => exFallbackDiv

/-- Parser mapping every body to the bare document. -/
def exParseBare : String → Html := fun _ => exBareDoc

/-- Translation capability that translates the line "a" and fails on
every other line. -/
def exTr : Translator := fun _ line => if line = "a" then some "A" else none

/-- An anchor is well-formed when its `href` is present and non-empty and
its stripped text is non-empty (the condition under which the
`get_chapter_links` loop keeps it). -/
def goodAnchor (a : Html) : Bool :=
  (match a.getAttr "href" with
   | some h => h ≠ ""
   | none => false) && getTextStrip "" a ≠ ""

/-- The chapter built from a well-formed anchor. -/
def mkChapter (ujoin : String → String → String) (index_url : String) (a : Html) : Chapter :=
  ⟨getTextStrip "" a, ujoin index_url ((a.getAttr "href").getD "")⟩

/-- The chapter list discovered from the concrete index page. -/
def exChaps : List Chapter :=
  [⟨"Ch 1", "http://x/c1"⟩, ⟨"Ch 2", "http://x/c2"⟩]

/-- C1: with `retries = 3`, a GET capability that raises a transport
error on attempts 1 and 2 and answers 200 with `body` on attempt 3 makes
`fetch_url` return the successful body after exactly 3 attempts and
exactly 2 sleeps (between attempts 1 and 2 and between attempts 2 and 3),
never after the final attempt. -/
theorem fetch_url_retry_backoff (get : Nat → GetOutcome) (body : String)
    (h1 : get 1 = .transportError) (h2 : get 2 = .transportError)
    (h3 : get 3 = .response 200 body) :
    fetch_url get 3 = ⟨some body, 3, 2⟩ := by
  have hr : List.range' 1 (Int.toNat 3) = [1, 2, 3] := rfl
  rw [fetch_url, hr]
  simp [fetch_loop, h1, h2, h3]

/-- Witness for C1 at the concrete flaky GET capability. -/
theorem fetch_url_retry_backoff_witness :
    fetch_url exGetFlaky 3 = ⟨some "ok", 3, 2⟩ :=
  fetch_url_retry_backoff exGetFlaky "ok" rfl rfl rfl

/-- Helper for C2: running the attempt loop over the attempt numbers
`j, j+1, ...` when every attempt before `k` is a transport error and
attempt `k` answers a non-200 status: the loop stops at attempt `k` with
`None`, having made `k - j + 1` attempts and slept `k - j` times. -/
theorem fetch_loop_non200 (get : Nat → GetOutcome) (retriesN k s : Nat) (body : String)
    (hs : s ≠ 200) (hk : get k = .response s body) (hkr : k ≤ retriesN)
    (hprev : ∀ i, 1 ≤ i → i < k → get i = .transportError) :
    ∀ n j, 1 ≤ j → j ≤ k → k < j + n →
      fetch_loop get retriesN (List.range' j n) = ⟨none, k - j + 1, k - j⟩ := by
  intro n
  induction n with
  | zero => intro j h1 h2 h3; omega
  | succ n ih =>
    intro j h1 h2 h3
    rw [List.range'_succ]
    by_cases hj : j = k
    · subst hj
      simp [fetch_loop, hk, hs]
    · have hjk : j < k := lt_of_le_of_ne h2 hj
      have hget : get j = .transportError := hprev j h1 hjk
      have hjr : j ≠ retriesN := by omega
      have hrec := ih (j + 1) (by omega) (by omega) (by omega)
      simp only [fetch_loop, hget, hjr, if_false, hrec]
      have e1 : k - (j + 1) + 1 + 1 = k - j + 1 := by omega
      have e2 : k - (j + 1) + 1 = k - j := by omega
      rw [e1, e2]

/-- C2: whenever the first `k - 1` attempts are transport errors and
attempt `k` (within the retry bound) answers any non-200 status,
`fetch_url` fails immediately with `None` after exactly `k` attempts —
the non-200 response consumes no further attempt and triggers no sleep
(the `k - 1` sleeps all precede it). -/
theorem fetch_url_non200_failfast (get : Nat → GetOutcome) (retries : Int) (k s : Nat)
    (body : String) (hk1 : 1 ≤ k) (hk2 : k ≤ retries.toNat)
    (hprev : ∀ i, 1 ≤ i → i < k → get i = .transportError)
    (hs : s ≠ 200) (hk : get k = .response s body) :
    fetch_url get retries = ⟨none, k, k - 1⟩ := by
  have h := fetch_loop_non200 get retries.toNat k s body hs hk hk2 hprev retries.toNat 1
    le_rfl hk1 (by omega)
  rw [fetch_url, h]
  have hkk : k - 1 + 1 = k := by omega
  rw [hkk]

/-- Witness for C2: a transport error then a 404 on attempt 2 of 3 gives
`None` after 2 attempts and 1 sleep. -/
theorem fetch_url_non200_failfast_witness :
    fetch_url exGetThen404 3 = ⟨none, 2, 1⟩ :=
  fetch_url_non200_failfast exGetThen404 3 2 404 "nf" (by decide) (by decide)
    (fun i hi1 hi2 => by
      have hi : i = 1 := by omega
      subst hi
      rfl)
    (by decide) rfl

/-- Helper for C10: the attempt loop makes at most one attempt per
remaining attempt number. -/
theorem fetch_loop_attempts_le (get : Nat → GetOutcome) (retriesN : Nat) :
    ∀ l : List Nat, (fetch_loop get retriesN l).attempts ≤ l.length := by
  intro l
  induction l with
  | nil => simp [fetch_loop]
  | cons attempt rest ih =>
    simp only [fetch_loop, List.length_cons]
    cases get attempt with
    | response status body =>
      by_cases hst : status = 200 <;> simp [hst]
    | transportError =>
      by_cases ha : attempt = retriesN
      · simp [ha]
      · simp [ha]
        omega

/-- C10: with `retries <= 0` the attempt range is empty, so `fetch_url`
performs no GET attempt at all and returns the failure value; in general
it makes at most `max(retries, 0)` attempts. -/
theorem fetch_url_retries_nonpos (get : Nat → GetOutcome) (retries : Int) :
    (retries ≤ 0 → fetch_url get retries = ⟨none, 0, 0⟩) ∧
    (fetch_url get retries).attempts ≤ retries.toNat := by
  constructor
  · intro h
    have h0 : retries.toNat = 0 := Int.toNat_of_nonpos h
    rw [fetch_url, h0]
    rfl
  · have h := fetch_loop_attempts_le get retries.toNat (List.range' 1 retries.toNat)
    rw [fetch_url]
    simpa using h

/-- Witness for C10: `retries = -1` with an always-successful GET makes
no attempt and returns `None`. -/
theorem fetch_url_retries_nonpos_witness :
    fetch_url exGetOk (-1) = ⟨none, 0, 0⟩ :=
  (fetch_url_retries_nonpos exGetOk (-1)).1 (by decide)

/-- C7 counterexample: the title `"/"` consists entirely of characters in
the invalid set, yet `sanitize_filename` returns `"_"`, not the literal
fallback `"chapter"` — replacement yields underscores, which never strip
to empty. -/
theorem sanitize_filename_all_invalid_cex :
    sanitize_filename "/" = "_" ∧ sanitize_filename "/" ≠ "chapter" := by
  exact ⟨by decide, by decide⟩

/-- Helper: single-character replacement at the character-list level. -/
theorem pyCharReplace_toList (s : String) (old new : Char) :
    (pyCharReplace s old new).toList = s.toList.map (fun c => if c = old then new else c) :=
  rfl

/-- Helper: folding single-character replacements of every character of
`L` by `'_'` maps each character in `L` to `'_'` and leaves the rest,
provided `'_'` itself is not in `L`. -/
theorem foldl_pyCharReplace_toList (L : List Char) (hL : L.contains '_' = false) :
    ∀ name : String,
      (L.foldl (fun acc ch => pyCharReplace acc ch '_') name).toList
        = name.toList.map (fun c => if L.contains c then '_' else c) := by
  induction L with
  | nil =>
    intro name
    simp
  | cons ch L ih =>
    intro name
    simp only [List.contains_cons, Bool.or_eq_false_iff] at hL
    have hch : ('_' == ch) = false := hL.1
    have hrest := ih hL.2 (pyCharReplace name ch '_')
    simp only [List.foldl_cons, hrest, pyCharReplace_toList, List.map_map]
    refine List.map_congr_left ?_
    intro c _
    simp only [Function.comp_apply, List.contains_cons]
    by_cases h1 : c = ch
    · subst h1
      simp [hL.2]
    · simp [h1]

/-- Helper: stripping only removes characters, so membership in the
stripped string implies membership in the original. -/
theorem pyStrip_subset (s : String) (c : Char) (h : c ∈ (pyStrip s).toList) :
    c ∈ s.toList := by
  have h' : c ∈ ((s.toList.dropWhile Char.isWhitespace).reverse.dropWhile
      Char.isWhitespace).reverse := h
  rw [List.mem_reverse] at h'
  have h2 := (List.dropWhile_sublist _).mem h'
  rw [List.mem_reverse] at h2
  exact (List.dropWhile_sublist _).mem h2

/-- C7 amended: each character of the invalid set `\ / : * ? " < > |` is
replaced by an underscore (`"A/B:C"` sanitizes to `"A_B_C"` and no
invalid character survives in any output), but a title consisting
entirely of invalid characters sanitizes to underscores (`"///"` to
`"___"`), not to the fallback; the literal fallback `"chapter"` is
produced when the title strips to empty (empty or whitespace-only
titles). -/
theorem sanitize_filename_amended :
    sanitize_filename "A/B:C" = "A_B_C" ∧
    sanitize_filename "///" = "___" ∧
    sanitize_filename "" = "chapter" ∧
    sanitize_filename " " = "chapter" ∧
    ∀ (name : String) (c : Char), c ∈ (sanitize_filename name).toList →
      ("\\/:*?\"<>|".toList.contains c) = false := by
  refine ⟨by decide, by decide, by decide, by decide, ?_⟩
  intro name c hc
  simp only [sanitize_filename] at hc
  split at hc
  · exact (by decide : ∀ x ∈ "chapter".toList, ("\\/:*?\"<>|".toList.contains x) = false) c hc
  · have h1 : c ∈ ("\\\\/:*?\"<>|".toList.foldl
        (fun acc ch => pyCharReplace acc ch '_') name).toList := pyStrip_subset _ c hc
    rw [foldl_pyCharReplace_toList _ (by decide) name] at h1
    obtain ⟨c0, _, hc0⟩ := List.mem_map.mp h1
    by_cases hin : ("\\\\/:*?\"<>|".toList.contains c0) = true
    · rw [if_pos hin] at hc0
      rw [← hc0]
      decide
    · have hinf : ("\\\\/:*?\"<>|".toList.contains c0) = false :=
        Bool.not_eq_true _ ▸ (by simpa using hin)
      rw [if_neg hin] at hc0
      subst hc0
      have hsplit : "\\\\/:*?\"<>|".toList = '\\' :: "\\/:*?\"<>|".toList := by decide
      rw [hsplit, List.contains_cons, Bool.or_eq_false_iff] at hinf
      exact hinf.2

/-- Witness for C7's amended general clause: the underscore produced for
`"/"` is not an invalid character. -/
theorem sanitize_filename_amended_witness :
    ("\\/:*?\"<>|".toList.contains '_') = false :=
  sanitize_filename_amended.2.2.2.2 "/" '_' (by decide)

/-- Helper: the translation loop produces exactly one output line per
input line. -/
theorem translateLoop_length (t : Translator) :
    ∀ (lines : List String) (idx : Nat), (translateLoop t idx lines).length = lines.length := by
  intro lines
  induction lines with
  | nil => intro idx; rfl
  | cons l rest ih => intro idx; simp [translateLoop, ih]

/-- Helper: the `i`-th output of the translation loop started at line
number `idx` is the translation of the `i`-th input under line number
`idx + i`, defaulting to the input line itself. -/
theorem translateLoop_getElem (t : Translator) :
    ∀ (lines : List String) (idx i : Nat),
      (translateLoop t idx lines)[i]?
        = (lines[i]?).map (fun line => (t (idx + i) line).getD line) := by
  intro lines
  induction lines with
  | nil => intro idx i; simp [translateLoop]
  | cons l rest ih =>
    intro idx i
    cases i with
    | zero => simp [translateLoop]
    | succ n =>
      simp only [translateLoop, List.getElem?_cons_succ, ih (idx + 1) n]
      have h : idx + 1 + n = idx + (n + 1) := by omega
      rw [h]

/-- C5: with translation enabled and a translator present,
`translate_text` joins exactly one output line per blank-filtered input
line, in input order, where each output line is the capability's
translation of the corresponding line when the call succeeds and the
original untranslated line when the call raises; no per-line failure
fails the operation as a whole. -/
theorem translate_text_degrades (t : Translator) (text : String) :
    ∃ outs : List String,
      translate_text text (some t) true = String.intercalate "\n" outs ∧
      outs.length = ((pySplitLines text).filter (fun l => pyStrip l ≠ "")).length ∧
      ∀ i : Nat, i < ((pySplitLines text).filter (fun l => pyStrip l ≠ "")).length →
        (∃ line s, ((pySplitLines text).filter (fun l => pyStrip l ≠ ""))[i]? = some line ∧
          t (i + 1) line = some s ∧ outs[i]? = some s) ∨
        (∃ line, ((pySplitLines text).filter (fun l => pyStrip l ≠ ""))[i]? = some line ∧
          t (i + 1) line = none ∧ outs[i]? = some line) := by
  refine ⟨translateLoop t 1 ((pySplitLines text).filter (fun l => pyStrip l ≠ "")), rfl,
    translateLoop_length t _ 1, ?_⟩
  intro i hi
  set lines := (pySplitLines text).filter (fun l => pyStrip l ≠ "") with hlines
  cases hline : lines[i]? with
  | none =>
    rw [List.getElem?_eq_none_iff] at hline
    omega
  | some line =>
    have hout : (translateLoop t 1 lines)[i]? = some ((t (1 + i) line).getD line) := by
      rw [translateLoop_getElem t lines 1 i, hline]
      rfl
    rw [Nat.add_comm 1 i] at hout
    cases ht : t (i + 1) line with
    | none => exact Or.inr ⟨line, rfl, ht, by rw [hout, ht]; rfl⟩
    | some s => exact Or.inl ⟨line, s, rfl, ht, by rw [hout, ht]; rfl⟩

/-- Witness for C5 at the concrete translator that translates "a" and
fails on every other line, on a text with a blank middle line. -/
theorem translate_text_degrades_witness :
    ∃ outs : List String,
      translate_text "a\n \nb" (some exTr) true = String.intercalate "\n" outs ∧
      outs.length = ((pySplitLines "a\n \nb").filter (fun l => pyStrip l ≠ "")).length ∧
      ∀ i : Nat, i < ((pySplitLines "a\n \nb").filter (fun l => pyStrip l ≠ "")).length →
        (∃ line s, ((pySplitLines "a\n \nb").filter (fun l => pyStrip l ≠ ""))[i]? = some line ∧
          exTr (i + 1) line = some s ∧ outs[i]? = some s) ∨
        (∃ line, ((pySplitLines "a\n \nb").filter (fun l => pyStrip l ≠ ""))[i]? = some line ∧
          exTr (i + 1) line = none ∧ outs[i]? = some line) :=
  translate_text_degrades exTr "a\n \nb"

/-- Helper: the anchor loop of `get_chapter_links` keeps exactly the
well-formed anchors, mapping each to its chapter, in order. -/
theorem anchorEntry_eq (ujoin : String → String → String) (u : String) :
    ∀ l : List Html,
      l.filterMap (anchorEntry ujoin u) = (l.filter goodAnchor).map (mkChapter ujoin u) := by
  intro l
  induction l with
  | nil => rfl
  | cons a rest ih =>
    simp only [List.filterMap_cons, List.filter_cons]
    cases hh : a.getAttr "href" with
    | none =>
      have hg : goodAnchor a = false := by simp [goodAnchor, hh]
      simp [anchorEntry, hh, hg, ih]
    | some h =>
      by_cases h1 : h = ""
      · have hg : goodAnchor a = false := by simp [goodAnchor, hh, h1]
        simp [anchorEntry, hh, h1, hg, ih]
      · by_cases h2 : getTextStrip "" a = ""
        · have hg : goodAnchor a = false := by simp [goodAnchor, hh, h2]
          simp [anchorEntry, hh, h1, h2, hg, ih]
        · have hg : goodAnchor a = true := by simp [goodAnchor, hh, h1, h2]
          simp [anchorEntry, mkChapter, hh, h1, h2, hg, ih]

/-- C3: when the index fetch succeeds with a truthy body and the
`#tbchapterlist` container is found, `get_chapter_links` returns the
well-formed anchors of the container as title/url pairs in document
order, each url resolved by `urljoin` against the index url; anchors
missing an href or text are skipped without an entry or an error, and
when all `N` anchors are well-formed exactly `N` pairs come back
position by position. -/
theorem get_chapter_links_ordered (get : String → Nat → GetOutcome) (parse : String → Html)
    (ujoin : String → String → String) (index_url : String) (retries : Int)
    (body : String) (container : Html)
    (hfetch : (fetch_url (get index_url) retries).result = some body)
    (hbody : body ≠ "")
    (hfind : findByIdAttr (parse body) "tbchapterlist" = some container) :
    ∃ links : List Chapter,
      get_chapter_links get parse ujoin index_url retries = .ok links ∧
      links = ((findAllTags container ["a"]).filter goodAnchor).map (mkChapter ujoin index_url) ∧
      ((∀ a ∈ findAllTags container ["a"], goodAnchor a) →
        links.length = (findAllTags container ["a"]).length ∧
        ∀ i : Nat,
          links[i]? = ((findAllTags container ["a"])[i]?).map (mkChapter ujoin index_url)) := by
  refine ⟨(findAllTags container ["a"]).filterMap (anchorEntry ujoin index_url), ?_, ?_, ?_⟩
  · simp only [get_chapter_links, hfetch, hfind, if_neg hbody]
  · exact anchorEntry_eq ujoin index_url _
  · intro hall
    have hfil : (findAllTags container ["a"]).filter goodAnchor = findAllTags container ["a"] :=
      List.filter_eq_self.mpr hall
    constructor
    · rw [anchorEntry_eq, hfil, List.length_map]
    · intro i
      rw [anchorEntry_eq, hfil, List.getElem?_map]

/-- Witness for C3 at the concrete index page with two well-formed
anchors and one skipped anchor. -/
theorem get_chapter_links_ordered_witness :
    ∃ links : List Chapter,
      get_chapter_links exGet exParse exUjoin "http://x" 3 = .ok links ∧
      links = ((findAllTags exIndexContainer ["a"]).filter goodAnchor).map
        (mkChapter exUjoin "http://x") ∧
      ((∀ a ∈ findAllTags exIndexContainer ["a"], goodAnchor a) →
        links.length = (findAllTags exIndexContainer ["a"]).length ∧
        ∀ i : Nat,
          links[i]? = ((findAllTags exIndexContainer ["a"])[i]?).map
            (mkChapter exUjoin "http://x")) :=
  get_chapter_links_ordered exGet exParse exUjoin "http://x" 3 "INDEX" exIndexContainer
    rfl (by decide) rfl

/-- C4 counterexample: on a chapter page whose content container matches
the structural fingerprint but holds no text, `extract_chapter_text`
succeeds and returns the empty string, which contains no non-empty line
— extraction success does not guarantee non-empty text. -/
theorem extract_chapter_text_empty_cex :
    extract_chapter_text (fun _ => exEmptyDiv) "chapter body" = .ok "" ∧
    (pySplitLines "").filter (fun l => pyStrip l ≠ "") = [] :=
  ⟨rfl, by decide⟩

/-- C4 amended: whenever the content container is found and primary
paragraph/line-break extraction yields zero lines, the extractor falls
back to splitting the container's newline-flattened raw text before the
result is produced; the result is the newline-join of the cleaned
fallback lines, which may still be empty. -/
theorem extract_chapter_text_fallback (parse : String → Html) (chapter_html : String)
    (d : Html) (hd : findContentDiv (parse chapter_html) = some d)
    (hprim : primaryLines d = []) :
    extract_chapter_text parse chapter_html
      = .ok (String.intercalate "\n" (cleanLines (fallbackLines d))) := by
  simp [extract_chapter_text, hd, hprim]

/-- Witness for C4's amended claim on a chapter page whose container has
raw text lines but no paragraph structure. -/
theorem extract_chapter_text_fallback_witness :
    extract_chapter_text exParseFallback "chapter body"
      = .ok (String.intercalate "\n" (cleanLines (fallbackLines exFallbackDiv))) :=
  extract_chapter_text_fallback exParseFallback "chapter body" exFallbackDiv rfl rfl

/-- Helper for C6/C8: when the `max_chapters` stop condition does not
hold, the per-chapter loop handles exactly the head chapter — producing
one outcome carrying its index — and continues with the tail at the next
index, whatever the fetch/extract/translate results are. -/
theorem processLoop_cons (get : String → Nat → GetOutcome) (parse : String → Html)
    (translator : Option Translator) (translate : Bool) (output_dir : String)
    (start_from : Nat) (max_chapters : Option Nat) (retries : Int)
    (chap : Chapter) (rest : List Chapter) (idx : Nat)
    (h : (match max_chapters with
          | some m => decide (start_from + m ≤ idx)
          | none => false) = false) :
    ∃ o : ChapterOutcome, o.idxOf = idx ∧
      processLoop get parse translator translate output_dir start_from max_chapters retries
          (chap :: rest) idx
        = o :: processLoop get parse translator translate output_dir start_from max_chapters
            retries rest (idx + 1) := by
  simp only [processLoop]
  rw [if_neg (by simp [h])]
  cases hf : (fetch_url (get chap.url) retries).result with
  | none => exact ⟨.fetchFailed idx, rfl, rfl⟩
  | some html =>
    dsimp only
    by_cases hh : html = ""
    · rw [if_pos hh]
      exact ⟨.fetchFailed idx, rfl, rfl⟩
    · rw [if_neg hh]
      cases he : extract_chapter_text parse html with
      | error e => exact ⟨.extractFailed idx, rfl, rfl⟩
      | ok zh_text =>
        cases translate with
        | true =>
          refine ⟨_, ?_, rfl⟩
          rfl
        | false =>
          refine ⟨_, ?_, rfl⟩
          rfl

/-- Helper for C6: the indices of the outcomes produced by the
per-chapter loop started at `idx` are the consecutive range from `idx`
whose length is the remaining list length capped by the remaining
`max_chapters` budget. -/
theorem processLoop_indices (get : String → Nat → GetOutcome) (parse : String → Html)
    (translator : Option Translator) (translate : Bool) (output_dir : String)
    (start_from : Nat) (max_chapters : Option Nat) (retries : Int) :
    ∀ (l : List Chapter) (idx : Nat),
      (processLoop get parse translator translate output_dir start_from max_chapters retries
          l idx).map ChapterOutcome.idxOf
        = List.range' idx (match max_chapters with
            | none => l.length
            | some m => min l.length (start_from + m - idx)) := by
  intro l
  induction l with
  | nil =>
    intro idx
    cases max_chapters <;> simp [processLoop]
  | cons chap rest ih =>
    intro idx
    cases max_chapters with
    | none =>
      obtain ⟨o, ho, heq⟩ := processLoop_cons get parse translator translate output_dir
        start_from none retries chap rest idx rfl
      rw [heq, List.map_cons, ho, ih (idx + 1)]
      simp only [List.length_cons]
      rw [List.range'_succ]
    | some m =>
      by_cases hle : start_from + m ≤ idx
      · have hz : processLoop get parse translator translate output_dir start_from (some m)
            retries (chap :: rest) idx = [] := by
          simp only [processLoop]
          rw [if_pos (by simpa using hle)]
        have hn : min (chap :: rest).length (start_from + m - idx) = 0 := by
          simp only [List.length_cons]
          omega
        rw [hz]
        simp only [hn]
        rfl
      · obtain ⟨o, ho, heq⟩ := processLoop_cons get parse translator translate output_dir
          start_from (some m) retries chap rest idx (by simpa using hle)
        rw [heq, List.map_cons, ho, ih (idx + 1)]
        simp only [List.length_cons]
        have harith : min (rest.length + 1) (start_from + m - idx)
            = min rest.length (start_from + m - (idx + 1)) + 1 := by
          omega
        rw [harith, List.range'_succ]

/-- C6: once the chapter list is discovered, the orchestrator handles
exactly the chapters at 0-based positions `start_from, start_from + 1, ...`
for `min(N - start_from, max_chapters)` chapters (all remaining `N -
start_from` when `max_chapters` is absent), in list order; in particular
with `start_from ≥ N` the run returns cleanly with zero chapters
processed and no error. -/
theorem process_chapters_window (get : String → Nat → GetOutcome) (parse : String → Html)
    (ujoin : String → String → String) (tr : Translator) (index_url output_dir : String)
    (start_from : Nat) (max_chapters : Option Nat) (translate : Bool) (retries : Int)
    (chaps : List Chapter)
    (hlinks : get_chapter_links get parse ujoin index_url retries = .ok chaps) :
    ∃ evts : List ChapterOutcome,
      process_chapters get parse ujoin tr index_url output_dir start_from max_chapters
          translate retries = .ok evts ∧
      evts.map ChapterOutcome.idxOf
        = List.range' start_from
            (min (chaps.length - start_from) (max_chapters.getD (chaps.length - start_from))) := by
  by_cases hs : chaps.length ≤ start_from
  · refine ⟨[], ?_, ?_⟩
    · simp only [process_chapters, hlinks]
      rw [if_pos hs]
    · have h0 : chaps.length - start_from = 0 := by omega
      rw [h0]
      simp
  · refine ⟨processLoop get parse (if translate then some tr else none) translate output_dir
      start_from max_chapters retries (chaps.drop start_from) start_from, ?_, ?_⟩
    · simp only [process_chapters, hlinks]
      rw [if_neg hs]
    · rw [processLoop_indices]
      cases max_chapters with
      | none => simp [List.length_drop]
      | some m =>
        simp only [List.length_drop, Option.getD_some]
        congr 1
        omega

/-- Witness for C6 at the concrete two-chapter run with
`start_from = 1` and `max_chapters = 5`. -/
theorem process_chapters_window_witness :
    ∃ evts : List ChapterOutcome,
      process_chapters exGet exParse exUjoin exTr "http://x" "out" 1 (some 5) false 3
        = .ok evts ∧
      evts.map ChapterOutcome.idxOf
        = List.range' 1
            (min (exChaps.length - 1) ((some 5 : Option Nat).getD (exChaps.length - 1))) :=
  process_chapters_window exGet exParse exUjoin exTr "http://x" "out" 1 (some 5) false 3
    exChaps rfl

/-- C8: a missing `#tbchapterlist` container during index-page link
extraction aborts the entire run with the structure error, while a
structure error raised by `extract_chapter_text` on one chapter is
caught by the orchestrator loop, which records no written artifact for
that chapter and continues with the remaining chapters at the next
index. -/
theorem structure_error_scope (get : String → Nat → GetOutcome) (parse : String → Html)
    (ujoin : String → String → String) (tr : Translator) (index_url output_dir : String)
    (start_from : Nat) (max_chapters : Option Nat) (translate : Bool) (retries : Int) :
    (∀ body : String, (fetch_url (get index_url) retries).result = some body → body ≠ "" →
      findByIdAttr (parse body) "tbchapterlist" = none →
      process_chapters get parse ujoin tr index_url output_dir start_from max_chapters
          translate retries
        = .error "Could not find #tbchapterlist – check the page structure") ∧
    (∀ (translator : Option Translator) (chap : Chapter) (rest : List Chapter) (idx : Nat)
        (html e : String),
      (match max_chapters with
       | some m => decide (start_from + m ≤ idx)
       | none => false) = false →
      (fetch_url (get chap.url) retries).result = some html → html ≠ "" →
      extract_chapter_text parse html = .error e →
      processLoop get parse translator translate output_dir start_from max_chapters retries
          (chap :: rest) idx
        = .extractFailed idx
            :: processLoop get parse translator translate output_dir start_from max_chapters
                retries rest (idx + 1)) := by
  constructor
  · intro body hfetch hbody hfind
    simp only [process_chapters, get_chapter_links, hfetch, hfind, if_neg hbody]
  · intro translator chap rest idx html e hcond hfetch hbody hextract
    simp only [processLoop]
    rw [if_neg (by simp [hcond])]
    simp only [hfetch, if_neg hbody, hextract]

/-- Witness for C8 on the parser that yields a bare document: the index
run aborts with the structure error, and a chapter-level structure error
skips just that chapter. -/
theorem structure_error_scope_witness :
    process_chapters exGet exParseBare exUjoin exTr "http://x" "out" 0 none false 3
        = .error "Could not find #tbchapterlist – check the page structure" ∧
    processLoop exGet exParseBare none false "out" 0 none 3 [⟨"c", "u"⟩] 0
      = ChapterOutcome.extractFailed 0
          :: processLoop exGet exParseBare none false "out" 0 none 3 [] 1 :=
  ⟨(structure_error_scope exGet exParseBare exUjoin exTr "http://x" "out" 0 none false 3).1
      "INDEX" rfl (by decide) rfl,
   (structure_error_scope exGet exParseBare exUjoin exTr "http://x" "out" 0 none false 3).2
      none ⟨"c", "u"⟩ [] 0 "CHAP"
      "Could not find chapter text container. Structure may have changed."
      rfl rfl (by decide) rfl⟩

/-- C9: with translation disabled the orchestrator never consults the
translation capability — the only external input that is not an explicit
argument of a run — so two runs that agree on all other inputs return
the same outcome list, with byte-identical artifact paths and contents
for every processed chapter; in this pure embedding the run is a
function of its inputs, so two runs on identical inputs coincide. -/
theorem process_chapters_no_translate_deterministic (get : String → Nat → GetOutcome)
    (parse : String → Html) (ujoin : String → String → String) (tr1 tr2 : Translator)
    (index_url output_dir : String) (start_from : Nat) (max_chapters : Option Nat)
    (retries : Int) :
    process_chapters get parse ujoin tr1 index_url output_dir start_from max_chapters
        false retries
      = process_chapters get parse ujoin tr2 index_url output_dir start_from max_chapters
          false retries := rfl
